import Mathlib

/-!
Shallow embedding of the OmniHelper browser extension's coordinating hub
(the background service worker) and of the content-script response
classifier, together with theorems settling the specified properties.

Sources embedded:
* the background script: in-memory collections `appealIds` / `dialogIds`,
  the functions `saveAppealId`, `saveDialogId`, `clearAllData`,
  `sendAutoResponse`, and the `chrome.runtime.onMessage` listener;
* the responder module: `analyzeResponseForIncomingMessage(data, url)`.

JavaScript values that may be `undefined` are modelled as `Option`;
JS string truthiness (empty string and `undefined` are falsy) is `truthy`.
The wall clock (`Date.now()` / `toISOString()`) is passed in explicitly.
`chrome.storage.local` effects are not modelled: no claim depends on the
durable layer, and the code never reads it back outside `initialize`.
-/

namespace OmniHelper

/-- JS truthiness of an optional string: `undefined` and `""` are falsy,
every other string is truthy. -/
def truthy : Option String → Bool
  | none => false
  | some s => !s.isEmpty

/-- `leadsWith p l` holds when the character list `p` starts the list `l`. -/
def leadsWith : List Char → List Char → Bool
  | [], _ => true
  | _ :: _, [] => false
  | p :: ps, c :: cs => p == c && leadsWith ps cs

/-- JS `String.prototype.includes`: `pat` occurs as a contiguous substring
of `s`. -/
def strIncludes (s pat : String) : Bool :=
  s.toList.tails.any (fun t => leadsWith pat.toList t)

/-- JS `a || b` on optional strings: the left operand when truthy,
otherwise the value of the right operand. -/
def jsOrStr (a b : Option String) : Option String :=
  if truthy a then a else b

/-- One element of the background script's `appealIds` array:
`{appealId, url, timestamp, isoTimestamp}`.  The id and url come from a
message payload and may be `undefined` there, hence `Option`. -/
structure AppealEntry where
  appealId : Option String
  url : Option String
  timestamp : Nat
  isoTimestamp : String
  deriving DecidableEq

/-- One element of the background script's `dialogIds` array. -/
structure DialogEntry where
  dialogId : Option String
  url : Option String
  timestamp : Nat
  isoTimestamp : String
  deriving DecidableEq

/-- The background script's in-memory state: the two module-level arrays. -/
structure BgState where
  appealIds : List AppealEntry
  dialogIds : List DialogEntry
  deriving DecidableEq

/-- The state at service-worker start before any storage load: both arrays
empty. -/
def emptyState : BgState := { appealIds := [], dialogIds := [] }

/-- The callback of `appealIds.find(item => item.appealId === appealId)`. -/
def appealKeyed (k : Option String) (e : AppealEntry) : Bool :=
  e.appealId == k

/-- The callback of `dialogIds.find(item => item.dialogId === dialogId)`. -/
def dialogKeyed (k : Option String) (e : DialogEntry) : Bool :=
  e.dialogId == k

/-- Background `saveAppealId(appealId, url)`: build the new entry from the
current clock, push it only when no entry with the same `appealId` exists. -/
def saveAppealId (st : BgState) (appealId url : Option String)
    (ts : Nat) (iso : String) : BgState :=
  if (st.appealIds.find? (appealKeyed appealId)).isSome then st
  else { st with
    appealIds := st.appealIds ++
      [{ appealId := appealId, url := url, timestamp := ts, isoTimestamp := iso }] }

/-- Background `saveDialogId(dialogId, url)`: same shape as `saveAppealId`
on the `dialogIds` array. -/
def saveDialogId (st : BgState) (dialogId url : Option String)
    (ts : Nat) (iso : String) : BgState :=
  if (st.dialogIds.find? (dialogKeyed dialogId)).isSome then st
  else { st with
    dialogIds := st.dialogIds ++
      [{ dialogId := dialogId, url := url, timestamp := ts, isoTimestamp := iso }] }

/-- Background `clearAllData()`: reset both arrays to empty. -/
def clearAllData (_st : BgState) : BgState :=
  { appealIds := [], dialogIds := [] }

/-- The outbound POST issued by `sendAutoResponse`: its fixed endpoint and
the JSON body fields. -/
structure HttpPost where
  url : String
  dialogId : String
  text : String
  replyId : Option String
  templateId : Nat
  deriving DecidableEq

/-- The fixed endpoint of the fetch in `sendAutoResponse`. -/
def autoReplyEndpoint : String :=
  "https://omnichat.rt.ru/core/messages/send-agent-message"

/-- The fixed reply template text in `sendAutoResponse`. -/
def autoReplyText : String :=
  "Добрый день! Запрос принят в работу. Пожалуйста, не покидайте чат и оставайтесь на связи."

/-- Background `sendAutoResponse(dialogId)`: the single POST it issues,
with body `{dialogId, text, replyId: null, templateId: 5103}`. -/
def sendAutoResponse (dialogId : String) : HttpPost :=
  { url := autoReplyEndpoint, dialogId := dialogId, text := autoReplyText,
    replyId := none, templateId := 5103 }

/-- Result of the promise continuation attached to the `sendAutoResponse`
fetch: what state it leaves, what further posts it issues, what it logs. -/
structure OutcomeResult where
  state : BgState
  posts : List HttpPost
  logs : List String
  deriving DecidableEq

/-- The `.then`/`.catch` continuation of the fetch in `sendAutoResponse`:
on a 2xx outcome it logs success, on a non-2xx or network error it logs
the error; neither branch touches the arrays or issues another request. -/
def autoReplyOnOutcome (st : BgState) (dialogId : String) (ok : Bool) :
    OutcomeResult :=
  if ok then
    { state := st, posts := [],
      logs := ["BACKGROUND: Auto-response sent successfully for dialog ID: " ++ dialogId] }
  else
    { state := st, posts := [],
      logs := ["BACKGROUND: Error sending auto-response for dialog ID: " ++ dialogId] }

/-- The `data` payload of a runtime message; each field may be absent. -/
structure ReqData where
  appealId : Option String
  dialogId : Option String
  url : Option String
  deriving DecidableEq

/-- A runtime message `{action, data?}` as received by the listener. -/
structure Request where
  action : String
  data : Option ReqData
  deriving DecidableEq

/-- The `data` payload of a `getData` response. -/
structure Snapshot where
  appealIds : List AppealEntry
  dialogIds : List DialogEntry
  deriving DecidableEq

/-- A response object `{success, data?, error?}` passed to `sendResponse`. -/
structure Response where
  success : Bool
  data : Option Snapshot
  error : Option String
  deriving DecidableEq

/-- Everything one invocation of the message listener produces: the state
it leaves, the responses it sent, the posts it fired, and its return
value to the transport layer. -/
structure StepResult where
  state : BgState
  sent : List Response
  posts : List HttpPost
  returned : Bool
  deriving DecidableEq

/-- The `chrome.runtime.onMessage` listener of the background script: the
switch over `request.action`, with the current clock passed explicitly. -/
def handleMessage (st : BgState) (req : Request) (ts : Nat) (iso : String) :
    StepResult :=
  if req.action == "saveAppealId" then
    match req.data with
    | some d =>
        { state := saveAppealId st d.appealId d.url ts iso,
          sent := [{ success := true, data := none, error := none }],
          posts := [], returned := true }
    | none =>
        { state := st,
          sent := [{ success := false, data := none,
                     error := some "No data provided for saveAppealId" }],
          posts := [], returned := true }
  else if req.action == "saveDialogId" then
    match req.data with
    | some d =>
        { state := saveDialogId st d.dialogId d.url ts iso,
          sent := [{ success := true, data := none, error := none }],
          posts := [], returned := true }
    | none =>
        { state := st,
          sent := [{ success := false, data := none,
                     error := some "No data provided for saveDialogId" }],
          posts := [], returned := true }
  else if req.action == "incomingMessageDetected" then
    match req.data with
    | some d =>
        match d.dialogId with
        | some s =>
            if s.isEmpty then
              { state := st,
                sent := [{ success := false, data := none,
                           error := some "No dialogId provided for incoming message" }],
                posts := [], returned := true }
            else
              { state := st,
                sent := [{ success := true, data := none, error := none }],
                posts := [sendAutoResponse s], returned := true }
        | none =>
            { state := st,
              sent := [{ success := false, data := none,
                         error := some "No dialogId provided for incoming message" }],
              posts := [], returned := true }
    | none =>
        { state := st,
          sent := [{ success := false, data := none,
                     error := some "No dialogId provided for incoming message" }],
          posts := [], returned := true }
  else if req.action == "getData" then
    { state := st,
      sent := [{ success := true,
                 data := some { appealIds := st.appealIds, dialogIds := st.dialogIds },
                 error := none }],
      posts := [], returned := true }
  else if req.action == "clearData" then
    { state := clearAllData st,
      sent := [{ success := true, data := none, error := none }],
      posts := [], returned := true }
  else
    { state := st,
      sent := [{ success := false, data := none, error := some "Unknown action" }],
      posts := [], returned := true }

/-- The nested `message` object a parsed response body may carry. -/
structure NestedMessage where
  text : Option String
  author : Option String
  dialogId : Option String
  deriving DecidableEq

/-- A parsed response body as read by the responder: the fields
`analyzeResponseForIncomingMessage` inspects, plus the nested
`message.dialogId` it never reads. -/
structure RespBody where
  text : Option String
  author : Option String
  dialogId : Option String
  dialog_id : Option String
  message : Option NestedMessage
  deriving DecidableEq

/-- Responder `analyzeResponseForIncomingMessage(data, url)`: the four
sequential rules, returning the dialog id or null. -/
def analyzeResponseForIncomingMessage (data : RespBody) (url : String) :
    Option String :=
  if strIncludes url "send-agent-message" then none
  else
    let hasText := truthy data.text || truthy (data.message.bind NestedMessage.text)
    if !hasText then none
    else
      let author := jsOrStr data.author (data.message.bind NestedMessage.author)
      if author == some "agent" then none
      else
        let dialogId := jsOrStr data.dialogId data.dialog_id
        if !(truthy dialogId) then none
        else dialogId

/-- Repeated background `saveAppealId` calls with one fixed id `k`:
each list element supplies the `url` and the clock of one call. -/
def runAppealSaves (k : Option String) :
    BgState → List (Option String × Nat × String) → BgState
  | st, [] => st
  | st, c :: cs => runAppealSaves k (saveAppealId st k c.1 c.2.1 c.2.2) cs

/-- Repeated background `saveDialogId` calls with one fixed id `k`. -/
def runDialogSaves (k : Option String) :
    BgState → List (Option String × Nat × String) → BgState
  | st, [] => st
  | st, c :: cs => runDialogSaves k (saveDialogId st k c.1 c.2.1 c.2.2) cs

/-- The specified firing conditions of the classifier, written after the
spec's wording (for comparison against the code's
`analyzeResponseForIncomingMessage`), with the URL condition stated as the
code implements it: the URL does not contain the marker substring; the
body has non-empty text in `text` or `message.text`; the effective author
(top-level if truthy, else `message.author`) is not `agent`; a truthy
top-level `dialogId`/`dialog_id` is present. -/
def claimedAnalyzeConditions (data : RespBody) (url : String) : Bool :=
  !(strIncludes url "send-agent-message")
    && (truthy data.text || truthy (data.message.bind NestedMessage.text))
    && !(jsOrStr data.author (data.message.bind NestedMessage.author) == some "agent")
    && truthy (jsOrStr data.dialogId data.dialog_id)

/-- The dialog id the spec says the classifier returns when it fires: the
top-level `dialogId`, falling back to `dialog_id`. -/
def claimedAnalyzeResult (data : RespBody) : Option String :=
  jsOrStr data.dialogId data.dialog_id

/-- The spec's example body `{text:"hi", author:"user", dialogId:"7"}`. -/
def sampleBody : RespBody :=
  { text := some "hi", author := some "user", dialogId := some "7",
    dialog_id := none, message := none }

/-- The same example body with `author:"agent"`. -/
def sampleBodyAgent : RespBody :=
  { text := some "hi", author := some "agent", dialogId := some "7",
    dialog_id := none, message := none }

/-- The same example body with no `text`/`message.text`. -/
def sampleBodyNoText : RespBody :=
  { text := none, author := some "user", dialogId := some "7",
    dialog_id := none, message := none }

/-!  Helper lemmas about the save functions and the collections. -/

theorem saveAppealId_of_absent {st : BgState} {k u : Option String}
    {ts : Nat} {iso : String}
    (h : st.appealIds.find? (appealKeyed k) = none) :
    saveAppealId st k u ts iso =
      { st with appealIds := st.appealIds ++
          [{ appealId := k, url := u, timestamp := ts, isoTimestamp := iso }] } := by
  simp [saveAppealId, h]

theorem saveAppealId_of_present {st : BgState} {k u : Option String}
    {ts : Nat} {iso : String}
    (h : (st.appealIds.find? (appealKeyed k)).isSome = true) :
    saveAppealId st k u ts iso = st := by
  simp only [saveAppealId, h, if_pos]

theorem saveDialogId_of_absent {st : BgState} {k u : Option String}
    {ts : Nat} {iso : String}
    (h : st.dialogIds.find? (dialogKeyed k) = none) :
    saveDialogId st k u ts iso =
      { st with dialogIds := st.dialogIds ++
          [{ dialogId := k, url := u, timestamp := ts, isoTimestamp := iso }] } := by
  simp [saveDialogId, h]

theorem saveDialogId_of_present {st : BgState} {k u : Option String}
    {ts : Nat} {iso : String}
    (h : (st.dialogIds.find? (dialogKeyed k)).isSome = true) :
    saveDialogId st k u ts iso = st := by
  simp only [saveDialogId, h, if_pos]

theorem runAppealSaves_of_present (k : Option String)
    (cs : List (Option String × Nat × String)) :
    ∀ st : BgState, (st.appealIds.find? (appealKeyed k)).isSome = true →
      runAppealSaves k st cs = st := by
  induction cs with
  | nil => intro st _; rfl
  | cons c cs ih =>
      intro st h
      simp only [runAppealSaves]
      rw [saveAppealId_of_present h]
      exact ih st h

theorem runDialogSaves_of_present (k : Option String)
    (cs : List (Option String × Nat × String)) :
    ∀ st : BgState, (st.dialogIds.find? (dialogKeyed k)).isSome = true →
      runDialogSaves k st cs = st := by
  induction cs with
  | nil => intro st _; rfl
  | cons c cs ih =>
      intro st h
      simp only [runDialogSaves]
      rw [saveDialogId_of_present h]
      exact ih st h

theorem countP_append_singleton_of_none {α : Type} (p : α → Bool)
    (l : List α) (e : α) (h : l.find? p = none) (he : p e = true) :
    (l ++ [e]).countP p = 1 := by
  rw [List.countP_append]
  have h0 : l.countP p = 0 :=
    List.countP_eq_zero.mpr (List.find?_eq_none.mp h)
  rw [h0, List.countP_singleton, if_pos he]

theorem find?_append_singleton_of_none {α : Type} (p : α → Bool)
    (l : List α) (e : α) (h : l.find? p = none) (he : p e = true) :
    (l ++ [e]).find? p = some e := by
  rw [List.find?_append, h]
  simp [List.find?, he]

/-- C1: any sequence of `saveAppealId` calls sharing one `appealId`
(likewise `saveDialogId` with one `dialogId`), run from a state with no
record under that key, leaves exactly one record under the key, carrying
the url and timestamps of the first call; and on any state that already
holds the key, a further save is a no-op. -/
theorem save_first_write_wins
    (st stP stQ : BgState) (k u kd v uP vQ : Option String)
    (ts tsd tsP tsQ : Nat) (iso isod isoP isoQ : String)
    (csA csD : List (Option String × Nat × String))
    (hA : st.appealIds.find? (appealKeyed k) = none)
    (hD : st.dialogIds.find? (dialogKeyed kd) = none)
    (hP : (stP.appealIds.find? (appealKeyed k)).isSome = true)
    (hQ : (stQ.dialogIds.find? (dialogKeyed kd)).isSome = true) :
    ((runAppealSaves k st ((u, ts, iso) :: csA)).appealIds.countP (appealKeyed k) = 1
      ∧ (runAppealSaves k st ((u, ts, iso) :: csA)).appealIds.find? (appealKeyed k) =
          some { appealId := k, url := u, timestamp := ts, isoTimestamp := iso })
    ∧ ((runDialogSaves kd st ((v, tsd, isod) :: csD)).dialogIds.countP (dialogKeyed kd) = 1
      ∧ (runDialogSaves kd st ((v, tsd, isod) :: csD)).dialogIds.find? (dialogKeyed kd) =
          some { dialogId := kd, url := v, timestamp := tsd, isoTimestamp := isod })
    ∧ saveAppealId stP k uP tsP isoP = stP
    ∧ saveDialogId stQ kd vQ tsQ isoQ = stQ := by
  have hkA : appealKeyed k { appealId := k, url := u, timestamp := ts, isoTimestamp := iso } = true := by
    simp [appealKeyed]
  have hkD : dialogKeyed kd { dialogId := kd, url := v, timestamp := tsd, isoTimestamp := isod } = true := by
    simp [dialogKeyed]
  have stepA : runAppealSaves k st ((u, ts, iso) :: csA) =
      { st with appealIds := st.appealIds ++
          [{ appealId := k, url := u, timestamp := ts, isoTimestamp := iso }] } := by
    simp only [runAppealSaves]
    rw [saveAppealId_of_absent hA]
    exact runAppealSaves_of_present k csA _
      (by rw [find?_append_singleton_of_none _ _ _ hA hkA]; rfl)
  have stepD : runDialogSaves kd st ((v, tsd, isod) :: csD) =
      { st with dialogIds := st.dialogIds ++
          [{ dialogId := kd, url := v, timestamp := tsd, isoTimestamp := isod }] } := by
    simp only [runDialogSaves]
    rw [saveDialogId_of_absent hD]
    exact runDialogSaves_of_present kd csD _
      (by rw [find?_append_singleton_of_none _ _ _ hD hkD]; rfl)
  refine ⟨⟨?_, ?_⟩, ⟨?_, ?_⟩, saveAppealId_of_present hP, saveDialogId_of_present hQ⟩
  · rw [stepA]; exact countP_append_singleton_of_none _ _ _ hA hkA
  · rw [stepA]; exact find?_append_singleton_of_none _ _ _ hA hkA
  · rw [stepD]; exact countP_append_singleton_of_none _ _ _ hD hkD
  · rw [stepD]; exact find?_append_singleton_of_none _ _ _ hD hkD

/-- Witness for C1 at concrete inputs: two discoveries of appeal id "123"
from different source urls keep the first url and timestamp; same for
dialog id "55"; and saves on states already holding the key are no-ops. -/
theorem save_first_write_wins_witness :
    (emptyState.appealIds.find? (appealKeyed (some "123")) = none)
    ∧ (emptyState.dialogIds.find? (dialogKeyed (some "55")) = none)
    ∧ (((saveAppealId emptyState (some "123") (some "https://a") 1 "t1").appealIds.find?
          (appealKeyed (some "123"))).isSome = true)
    ∧ (((saveDialogId emptyState (some "55") (some "https://x") 1 "t1").dialogIds.find?
          (dialogKeyed (some "55"))).isSome = true)
    ∧ ((runAppealSaves (some "123") emptyState
          ((some "https://a", 1, "t1") :: [(some "https://b", 2, "t2")])).appealIds.countP
            (appealKeyed (some "123")) = 1
      ∧ (runAppealSaves (some "123") emptyState
          ((some "https://a", 1, "t1") :: [(some "https://b", 2, "t2")])).appealIds.find?
            (appealKeyed (some "123")) =
          some { appealId := some "123", url := some "https://a", timestamp := 1, isoTimestamp := "t1" })
    ∧ ((runDialogSaves (some "55") emptyState
          ((some "https://x", 3, "t3") :: [(some "https://y", 4, "t4")])).dialogIds.countP
            (dialogKeyed (some "55")) = 1
      ∧ (runDialogSaves (some "55") emptyState
          ((some "https://x", 3, "t3") :: [(some "https://y", 4, "t4")])).dialogIds.find?
            (dialogKeyed (some "55")) =
          some { dialogId := some "55", url := some "https://x", timestamp := 3, isoTimestamp := "t3" })
    ∧ saveAppealId (saveAppealId emptyState (some "123") (some "https://a") 1 "t1")
        (some "123") (some "https://c") 9 "t9" =
        saveAppealId emptyState (some "123") (some "https://a") 1 "t1"
    ∧ saveDialogId (saveDialogId emptyState (some "55") (some "https://x") 1 "t1")
        (some "55") (some "https://z") 9 "t9" =
        saveDialogId emptyState (some "55") (some "https://x") 1 "t1" := by
  have h := save_first_write_wins
    emptyState
    (saveAppealId emptyState (some "123") (some "https://a") 1 "t1")
    (saveDialogId emptyState (some "55") (some "https://x") 1 "t1")
    (some "123") (some "https://a") (some "55") (some "https://x")
    (some "https://c") (some "https://z")
    1 3 9 9 "t1" "t3" "t9" "t9"
    [(some "https://b", 2, "t2")] [(some "https://y", 4, "t4")]
    (by decide) (by decide) (by decide) (by decide)
  exact ⟨by decide, by decide, by decide, by decide, h.1, h.2.1, h.2.2.1, h.2.2.2⟩

/-- C2 counterexample: a URL that is not the auto-reply endpoint but
contains the marker substring, together with a body meeting every other
condition of the claim, is classified as null — the code suppresses on
substring containment, not on equality with the endpoint. -/
theorem analyze_endpoint_equality_counterexample :
    ("https://example.com/send-agent-message-log" : String) ≠ autoReplyEndpoint
    ∧ truthy sampleBody.text = true
    ∧ jsOrStr sampleBody.author (sampleBody.message.bind NestedMessage.author) ≠ some "agent"
    ∧ truthy (jsOrStr sampleBody.dialogId sampleBody.dialog_id) = true
    ∧ analyzeResponseForIncomingMessage sampleBody
        "https://example.com/send-agent-message-log" = none := by
  exact ⟨by decide, by decide, by decide, by decide, by decide⟩

/-- C2 amended: the classifier is pure and returns the top-level
`dialogId`/`dialog_id` exactly when the URL does not contain the marker
substring `send-agent-message`, the body has non-empty `text` or
`message.text`, the effective author is not `agent`, and a non-empty
top-level `dialogId`/`dialog_id` is present; in particular the spec's four
example cases hold, and every URL containing the marker (the auto-reply
endpoint included) yields null for every body. -/
theorem analyze_classification_characterization :
    (∀ (data : RespBody) (url : String),
      analyzeResponseForIncomingMessage data url =
        if claimedAnalyzeConditions data url = true then claimedAnalyzeResult data else none)
    ∧ analyzeResponseForIncomingMessage sampleBody "https://omnichat.rt.ru/dialogs" = some "7"
    ∧ analyzeResponseForIncomingMessage sampleBodyAgent "https://omnichat.rt.ru/dialogs" = none
    ∧ analyzeResponseForIncomingMessage sampleBodyNoText "https://omnichat.rt.ru/dialogs" = none
    ∧ (∀ data : RespBody,
        analyzeResponseForIncomingMessage data autoReplyEndpoint = none) := by
  refine ⟨?_, by decide, by decide, by decide, ?_⟩
  · intro data url
    unfold analyzeResponseForIncomingMessage claimedAnalyzeConditions claimedAnalyzeResult
    cases hu : strIncludes url "send-agent-message" <;>
      cases ht : (truthy data.text || truthy (data.message.bind NestedMessage.text)) <;>
        cases ha : (jsOrStr data.author (data.message.bind NestedMessage.author) == some "agent") <;>
          cases hd : truthy (jsOrStr data.dialogId data.dialog_id) <;>
            simp [hu, ht, ha, hd]
  · intro data
    unfold analyzeResponseForIncomingMessage
    rw [if_pos]
    decide

/-- C3 counterexample: a `saveAppealId` request whose `data` object is
present but carries the empty-string id is answered `{success:true}` and
inserts a record keyed by the empty string — not the claimed
`{success:false}` with no mutation. -/
theorem save_empty_id_accepted_counterexample :
    (handleMessage emptyState
        { action := "saveAppealId",
          data := some { appealId := some "", dialogId := none, url := some "https://a" } }
        5 "t").sent = [{ success := true, data := none, error := none }]
    ∧ (handleMessage emptyState
        { action := "saveAppealId",
          data := some { appealId := some "", dialogId := none, url := some "https://a" } }
        5 "t").state.appealIds =
      [{ appealId := some "", url := some "https://a", timestamp := 5, isoTimestamp := "t" }] := by
  exact ⟨rfl, rfl⟩

/-- C3 amended: a `saveAppealId`/`saveDialogId` request is rejected with
`{success:false, error:"No data provided for ..."}` and no mutation
exactly when its `data` payload is absent; whenever a `data` object is
present — whatever its id field holds, an empty string or nothing at
all — the handler answers `{success:true}`, and from a state without that
(possibly empty or missing) key it inserts a record under it. -/
theorem save_validation_data_presence_only
    (st stB stC stA stD : BgState) (req : Request) (ts tsA tsD : Nat)
    (iso isoA isoD : String) (dA dD : ReqData)
    (hact : req.action = "saveAppealId" ∨ req.action = "saveDialogId")
    (hdata : req.data = none)
    (hA : stA.appealIds.find? (appealKeyed dA.appealId) = none)
    (hD : stD.dialogIds.find? (dialogKeyed dD.dialogId) = none) :
    ((handleMessage st req ts iso).state = st
      ∧ (handleMessage st req ts iso).sent =
          [{ success := false, data := none,
             error := some ("No data provided for " ++ req.action) }])
    ∧ (handleMessage stB { action := "saveAppealId", data := some dA } tsA isoA).sent =
        [{ success := true, data := none, error := none }]
    ∧ (handleMessage stC { action := "saveDialogId", data := some dD } tsD isoD).sent =
        [{ success := true, data := none, error := none }]
    ∧ (handleMessage stA { action := "saveAppealId", data := some dA } tsA isoA).state.appealIds.countP
        (appealKeyed dA.appealId) = 1
    ∧ (handleMessage stD { action := "saveDialogId", data := some dD } tsD isoD).state.dialogIds.countP
        (dialogKeyed dD.dialogId) = 1 := by
  obtain ⟨a, d⟩ := req
  simp only at hdata
  subst hdata
  refine ⟨?_, rfl, rfl, ?_, ?_⟩
  · rcases hact with h | h <;> simp only at h <;> subst h <;> exact ⟨rfl, rfl⟩
  · show (saveAppealId stA dA.appealId dA.url tsA isoA).appealIds.countP
      (appealKeyed dA.appealId) = 1
    rw [saveAppealId_of_absent hA]
    exact countP_append_singleton_of_none _ _ _ hA (by simp [appealKeyed])
  · show (saveDialogId stD dD.dialogId dD.url tsD isoD).dialogIds.countP
      (dialogKeyed dD.dialogId) = 1
    rw [saveDialogId_of_absent hD]
    exact countP_append_singleton_of_none _ _ _ hD (by simp [dialogKeyed])

/-- Witness for the amended C3 at concrete inputs: a data-less
`saveAppealId` is rejected without mutation; a payload with the id field
missing entirely and one with the empty-string id are both acknowledged
`{success:true}` and inserted under their (missing resp. empty) key. -/
theorem save_validation_data_presence_only_witness :
    (({ action := "saveAppealId", data := none } : Request).action = "saveAppealId"
        ∨ ({ action := "saveAppealId", data := none } : Request).action = "saveDialogId")
    ∧ ({ action := "saveAppealId", data := none } : Request).data = none
    ∧ emptyState.appealIds.find?
        (appealKeyed ({ appealId := none, dialogId := none, url := some "u" } : ReqData).appealId) = none
    ∧ emptyState.dialogIds.find?
        (dialogKeyed ({ appealId := none, dialogId := some "", url := some "u" } : ReqData).dialogId) = none
    ∧ (handleMessage emptyState { action := "saveAppealId", data := none } 1 "t").state = emptyState
    ∧ (handleMessage emptyState { action := "saveAppealId", data := none } 1 "t").sent =
        [{ success := false, data := none,
           error := some ("No data provided for " ++
             ({ action := "saveAppealId", data := none } : Request).action) }]
    ∧ (handleMessage emptyState
        { action := "saveAppealId",
          data := some { appealId := none, dialogId := none, url := some "u" } }
        2 "t2").sent = [{ success := true, data := none, error := none }]
    ∧ (handleMessage emptyState
        { action := "saveDialogId",
          data := some { appealId := none, dialogId := some "", url := some "u" } }
        2 "t2").sent = [{ success := true, data := none, error := none }]
    ∧ (handleMessage emptyState
        { action := "saveAppealId",
          data := some { appealId := none, dialogId := none, url := some "u" } }
        2 "t2").state.appealIds.countP
        (appealKeyed ({ appealId := none, dialogId := none, url := some "u" } : ReqData).appealId) = 1
    ∧ (handleMessage emptyState
        { action := "saveDialogId",
          data := some { appealId := none, dialogId := some "", url := some "u" } }
        2 "t2").state.dialogIds.countP
        (dialogKeyed ({ appealId := none, dialogId := some "", url := some "u" } : ReqData).dialogId) = 1 := by
  have h := save_validation_data_presence_only
    emptyState emptyState emptyState emptyState emptyState
    { action := "saveAppealId", data := none }
    1 2 2 "t" "t2" "t2"
    { appealId := none, dialogId := none, url := some "u" }
    { appealId := none, dialogId := some "", url := some "u" }
    (Or.inl rfl) rfl (by decide) (by decide)
  exact ⟨Or.inl rfl, rfl, by decide, by decide, h.1.1, h.1.2,
    h.2.1, h.2.2.1, h.2.2.2.1, h.2.2.2.2⟩

/-- C4: an `incomingMessageDetected` request with a non-empty `dialogId`
is acknowledged `{success:true}` in the same handler invocation that fires
the outbound post, the acknowledgment being fixed before any outcome of
that post exists; the state is untouched by the request, and either
outcome of the outbound call leaves the state unchanged. -/
theorem incoming_ack_independent_of_outcome
    (st : BgState) (a u : Option String) (d : String) (ts : Nat)
    (iso : String) (ok : Bool) (h : d ≠ "") :
    (handleMessage st
        { action := "incomingMessageDetected",
          data := some { appealId := a, dialogId := some d, url := u } }
        ts iso).sent = [{ success := true, data := none, error := none }]
    ∧ (handleMessage st
        { action := "incomingMessageDetected",
          data := some { appealId := a, dialogId := some d, url := u } }
        ts iso).state = st
    ∧ (handleMessage st
        { action := "incomingMessageDetected",
          data := some { appealId := a, dialogId := some d, url := u } }
        ts iso).posts = [sendAutoResponse d]
    ∧ (autoReplyOnOutcome st d ok).state = st := by
  have hie : d.isEmpty = false := by
    cases hd : d.isEmpty
    · rfl
    · exact absurd ((String.isEmpty_iff d).mp hd) h
  refine ⟨?_, ?_, ?_, ?_⟩
  · show (if d.isEmpty = true then _ else _ : StepResult).sent = _
    rw [hie]; rfl
  · show (if d.isEmpty = true then _ else _ : StepResult).state = _
    rw [hie]; rfl
  · show (if d.isEmpty = true then _ else _ : StepResult).posts = _
    rw [hie]; rfl
  · cases ok <;> rfl

/-- Witness for C4 at dialog id "55" with a failing outbound call. -/
theorem incoming_ack_independent_of_outcome_witness :
    ("55" : String) ≠ ""
    ∧ (handleMessage emptyState
        { action := "incomingMessageDetected",
          data := some { appealId := none, dialogId := some "55", url := none } }
        1 "t").sent = [{ success := true, data := none, error := none }]
    ∧ (handleMessage emptyState
        { action := "incomingMessageDetected",
          data := some { appealId := none, dialogId := some "55", url := none } }
        1 "t").state = emptyState
    ∧ (autoReplyOnOutcome emptyState "55" false).state = emptyState := by
  have h := incoming_ack_independent_of_outcome emptyState none none "55" 1 "t" false
    (by decide)
  exact ⟨by decide, h.1, h.2.1, h.2.2.2⟩

/-- C5: `clearData` empties both collections from any state, a `getData`
processed right after it answers the empty snapshot, and a second
`clearData` leaves the state reached by the first one unchanged. -/
theorem clear_then_get_empty_and_idempotent
    (st : BgState) (ts tsG tsC : Nat) (iso isoG isoC : String) :
    (handleMessage st { action := "clearData", data := none } ts iso).state = emptyState
    ∧ (handleMessage st { action := "clearData", data := none } ts iso).sent =
        [{ success := true, data := none, error := none }]
    ∧ (handleMessage (handleMessage st { action := "clearData", data := none } ts iso).state
        { action := "getData", data := none } tsG isoG).sent =
        [{ success := true, data := some { appealIds := [], dialogIds := [] }, error := none }]
    ∧ (handleMessage (handleMessage st { action := "clearData", data := none } ts iso).state
        { action := "clearData", data := none } tsC isoC).state =
      (handleMessage st { action := "clearData", data := none } ts iso).state := by
  exact ⟨rfl, rfl, rfl, rfl⟩

/-- C6: any request whose action is none of the five known ones is
answered with the structured failure `{success:false, error:"Unknown
action"}`, with no state change, no outbound post, and the listener still
returning true to the transport layer. -/
theorem unknown_action_structured_failure
    (st : BgState) (req : Request) (ts : Nat) (iso : String)
    (h1 : req.action ≠ "saveAppealId") (h2 : req.action ≠ "saveDialogId")
    (h3 : req.action ≠ "incomingMessageDetected") (h4 : req.action ≠ "getData")
    (h5 : req.action ≠ "clearData") :
    handleMessage st req ts iso =
      { state := st,
        sent := [{ success := false, data := none, error := some "Unknown action" }],
        posts := [], returned := true } := by
  unfold handleMessage
  rw [if_neg (by simp [h1]), if_neg (by simp [h2]), if_neg (by simp [h3]),
    if_neg (by simp [h4]), if_neg (by simp [h5])]

/-- Witness for C6 at the unrecognized action "frobnicate". -/
theorem unknown_action_structured_failure_witness :
    (("frobnicate" : String) ≠ "saveAppealId")
    ∧ (("frobnicate" : String) ≠ "saveDialogId")
    ∧ (("frobnicate" : String) ≠ "incomingMessageDetected")
    ∧ (("frobnicate" : String) ≠ "getData")
    ∧ (("frobnicate" : String) ≠ "clearData")
    ∧ handleMessage emptyState { action := "frobnicate", data := none } 1 "t" =
        { state := emptyState,
          sent := [{ success := false, data := none, error := some "Unknown action" }],
          posts := [], returned := true } := by
  exact ⟨by decide, by decide, by decide, by decide, by decide,
    unknown_action_structured_failure emptyState { action := "frobnicate", data := none }
      1 "t" (by decide) (by decide) (by decide) (by decide) (by decide)⟩

/-- C7: the auto-reply fired for a non-empty dialog id is exactly one POST
to the fixed endpoint with body `{dialogId, text: template, replyId: null,
templateId: 5103}`; either outcome of the call leaves the state unchanged,
issues no further post (no retry), and produces exactly one log line. -/
theorem auto_reply_single_post_fixed_body
    (st stO : BgState) (a u : Option String) (d : String) (ts : Nat)
    (iso : String) (ok : Bool) (h : d ≠ "") :
    (handleMessage st
        { action := "incomingMessageDetected",
          data := some { appealId := a, dialogId := some d, url := u } }
        ts iso).posts =
      [{ url := autoReplyEndpoint, dialogId := d, text := autoReplyText,
         replyId := none, templateId := 5103 }]
    ∧ (autoReplyOnOutcome stO d ok).state = stO
    ∧ (autoReplyOnOutcome stO d ok).posts = []
    ∧ (autoReplyOnOutcome stO d ok).logs.length = 1 := by
  have hie : d.isEmpty = false := by
    cases hd : d.isEmpty
    · rfl
    · exact absurd ((String.isEmpty_iff d).mp hd) h
  refine ⟨?_, ?_, ?_, ?_⟩
  · show (if d.isEmpty = true then _ else _ : StepResult).posts = _
    rw [hie]; rfl
  · cases ok <;> rfl
  · cases ok <;> rfl
  · cases ok <;> rfl

/-- Witness for C7 at dialog id "55" with a failing outbound call. -/
theorem auto_reply_single_post_fixed_body_witness :
    ("55" : String) ≠ ""
    ∧ (handleMessage emptyState
        { action := "incomingMessageDetected",
          data := some { appealId := none, dialogId := some "55", url := none } }
        1 "t").posts =
      [{ url := autoReplyEndpoint, dialogId := "55", text := autoReplyText,
         replyId := none, templateId := 5103 }]
    ∧ (autoReplyOnOutcome emptyState "55" false).state = emptyState
    ∧ (autoReplyOnOutcome emptyState "55" false).posts = []
    ∧ (autoReplyOnOutcome emptyState "55" false).logs.length = 1 := by
  have h := auto_reply_single_post_fixed_body emptyState emptyState none none "55"
    1 "t" false (by decide)
  exact ⟨by decide, h.1, h.2.1, h.2.2.1, h.2.2.2⟩

/-- C8: the listener is total over its interface — on every request it
sends exactly one response and returns true to the transport layer. -/
theorem listener_total_single_response
    (st : BgState) (req : Request) (ts : Nat) (iso : String) :
    (handleMessage st req ts iso).sent.length = 1
    ∧ (handleMessage st req ts iso).returned = true := by
  unfold handleMessage
  constructor <;> (repeat' split) <;> rfl

/-- C9: processing an `incomingMessageDetected` or `getData` request
leaves the whole state — both collections — unchanged. -/
theorem incoming_and_getData_preserve_collections
    (st : BgState) (req : Request) (ts : Nat) (iso : String)
    (h : req.action = "incomingMessageDetected" ∨ req.action = "getData") :
    (handleMessage st req ts iso).state = st := by
  obtain ⟨a, d⟩ := req
  simp only at h
  rcases h with h | h <;> subst h
  · cases d with
    | none => rfl
    | some dd =>
        obtain ⟨ai, di, ui⟩ := dd
        cases di with
        | none => rfl
        | some s =>
            show (if s.isEmpty = true then _ else _ : StepResult).state = st
            cases s.isEmpty <;> rfl
  · rfl

/-- Witness for C9: a dialog id delivered only via
`incomingMessageDetected` is not inserted into the collections. -/
theorem incoming_and_getData_preserve_collections_witness :
    (("incomingMessageDetected" : String) = "incomingMessageDetected"
      ∨ ("incomingMessageDetected" : String) = "getData")
    ∧ (handleMessage emptyState
        { action := "incomingMessageDetected",
          data := some { appealId := none, dialogId := some "55", url := none } }
        1 "t").state = emptyState := by
  exact ⟨Or.inl rfl,
    incoming_and_getData_preserve_collections emptyState
      { action := "incomingMessageDetected",
        data := some { appealId := none, dialogId := some "55", url := none } }
      1 "t" (Or.inl rfl)⟩

/-- C10: the classifier reads the dialog id only from the top-level
`dialogId`/`dialog_id` fields — a body whose text, author and dialog id
all sit inside the nested `message` object, with no top-level id, is
classified as null although every other condition holds. -/
theorem analyze_ignores_nested_dialog_id
    (url t a nd : String)
    (hurl : strIncludes url "send-agent-message" = false)
    (ht : t ≠ "") (ha : a ≠ "agent") :
    analyzeResponseForIncomingMessage
      { text := none, author := none, dialogId := none, dialog_id := none,
        message := some { text := some t, author := some a, dialogId := some nd } }
      url = none := by
  have hte : t.isEmpty = false := by
    cases hd : t.isEmpty
    · rfl
    · exact absurd ((String.isEmpty_iff t).mp hd) ht
  have haa : ((some a : Option String) == some "agent") = false := by
    simp [ha]
  simp [analyzeResponseForIncomingMessage, truthy, jsOrStr, hurl, hte, haa]

/-- Witness for C10 at a concrete nested-only body. -/
theorem analyze_ignores_nested_dialog_id_witness :
    strIncludes "https://omnichat.rt.ru/dialogs" "send-agent-message" = false
    ∧ ("hi" : String) ≠ ""
    ∧ ("user" : String) ≠ "agent"
    ∧ analyzeResponseForIncomingMessage
        { text := none, author := none, dialogId := none, dialog_id := none,
          message := some { text := some "hi", author := some "user", dialogId := some "9" } }
        "https://omnichat.rt.ru/dialogs" = none := by
  exact ⟨by decide, by decide, by decide,
    analyze_ignores_nested_dialog_id "https://omnichat.rt.ru/dialogs" "hi" "user" "9"
      (by decide) (by decide) (by decide)⟩

end OmniHelper
